import Mathlib

/-!
# Verification of the tallyus/api contribution service

Shallow embedding of the Express handlers in `private/internal/politicians.js`:
`/v1/authenticate`, `/v1/update-profile`, `/v1/set-card` and
`/v1/create-contribution`, together with the redis-backed store they mutate.

Requests, the redis store, the Stripe gateway and the Facebook identity
provider are modelled explicitly; callback-style I/O becomes explicit state
passing, and each fallible external call is an oracle parameter (an
`Except`/`Bool` outcome supplied to the handler).
-/

/-- A JavaScript request-body value, as far as the handlers inspect one:
a number (the handlers only ever do integer arithmetic on it), a string,
or an absent field (`undefined`). -/
inductive JVal where
  | num (n : Int)
  | str (s : String)
  | undef
deriving DecidableEq, Repr

/-- JavaScript truthiness for the values of `JVal`: `0`, `""` and
`undefined` are falsy, everything else is truthy.  This is the test the
handlers perform with `!req.body.field`. -/
def JVal.truthy : JVal → Bool
  | .num n => n != 0
  | .str s => s != ""
  | .undef => false

/-- A JavaScript numeric result: an integer or `NaN`. -/
inductive JNum where
  | int (n : Int)
  | nan
deriving DecidableEq, Repr

/-- JavaScript numeric coercion of a body value, as performed by `* 100`:
numbers stay themselves, numeric strings parse, everything else is `NaN`. -/
def jsToNumber : JVal → JNum
  | .num n => .int n
  | .str s => match s.toInt? with
    | some n => .int n
    | none => .nan
  | .undef => .nan

/-- `req.body.amount * 100` (line 276 of the source: dollars to cents). -/
def jsMul100 (v : JVal) : JNum :=
  match jsToNumber v with
  | .int n => .int (n * 100)
  | .nan => .nan

/-- The integer redis would parse out of an `INCRBY`/`HINCRBY` increment
argument; `none` when redis would reject the increment as a non-integer. -/
def jvalAsInt : JVal → Option Int
  | .num n => some n
  | .str s => s.toInt?
  | .undef => none

/-- A user record as built by the `/v1/authenticate` handler and mutated by
`/v1/update-profile`.  The profile fields `occupation`, `employer`,
`streetAddress` and `cityStateZip` are absent until a profile update sets
them, hence `Option`. -/
structure User where
  iden : String
  facebookId : String
  name : String
  email : String
  occupation : Option String
  employer : Option String
  streetAddress : Option String
  cityStateZip : Option String
  created : Int
  modified : Int
deriving DecidableEq, Repr

/-- An Event entity as read back by `entities.getEvent`: the fields the
create-contribution handler uses. -/
structure Event where
  iden : String
  politician : String
  supportPacs : List String
  opposePacs : List String
deriving DecidableEq, Repr

/-- A PAC entity as read back by `entities.getPac`. -/
structure Pac where
  iden : String
deriving DecidableEq, Repr

/-- The contribution record the handler builds after a successful charge
(lines 291-300 of the source). -/
structure Contribution where
  iden : String
  created : Int
  modified : Int
  chargeId : String
  amount : JVal
  event : String
  pac : String
  support : Bool
deriving DecidableEq, Repr

/-- The request the handler passes to `stripe.charges.create`
(lines 275-283 of the source). -/
structure ChargeRequest where
  amount : JNum
  currency : String
  customer : String
  eventIden : String
  pacIden : String
  support : Bool
deriving DecidableEq, Repr

/-- A successful Stripe charge, as far as the handler reads it. -/
structure Charge where
  id : String
deriving DecidableEq, Repr

/-- The redis-backed store: every hash, list and counter the four handlers
touch, keyed the way `redis-keys` keys them. -/
structure Store where
  users : String → Option User
  userIdenToAccessToken : String → Option String
  accessTokenToUserIden : String → Option String
  facebookUserIdToUserIden : String → Option String
  userIdenToStripeCustomerId : String → Option String
  events : String → Option Event
  pacs : String → Option Pac
  contributions : String → Option Contribution
  userContributions : String → List String
  eventTotals : String → String → Int
  politicianTotals : String → String → Int
  contributionsSum : Int
  userContributionsSum : String → Int

/-- Point update of a redis hash. -/
def hashSet {α : Type} (f : String → Option α) (k : String) (v : α) :
    String → Option α :=
  fun x => if x = k then some v else f x

/-- The outcome of `/v1/create-contribution`: the HTTP status sent, the
store after the handler finished, and the charge request handed to the
gateway when one was attempted at all. -/
structure CCResult where
  status : Nat
  store : Store
  chargeAttempted : Option ChargeRequest

/-- The precondition check at lines 220-223:
`!req.body.eventIden || !req.body.pacIden || !req.body.amount` replies 400.
`eventIden` and `pacIden` are used as lookup keys, hence strings; string
truthiness is non-emptiness. -/
def bodyPresent (eventIden pacIden : String) (amount : JVal) : Bool :=
  eventIden != "" && pacIden != "" && amount.truthy

/-- The six post-charge bookkeeping writes (lines 302-352), run by
`async.series` (line 354) in list order; each task logs its own redis error
and calls back without one, so a failed write never stops the later ones.
`wf i = true` means the i-th redis operation errored (and wrote nothing);
the four increments additionally require redis to parse the increment
`contribution.amount` as an integer. -/
def postChargeWrites (st : Store) (userIden : String) (c : Contribution)
    (ev : Event) (support : Bool) (wf : Nat → Bool) : Store :=
  let key := if support then "support" else "oppose"
  let st0 := if wf 0 then st else
    { st with contributions := hashSet st.contributions c.iden c }
  let st1 := if wf 1 then st0 else
    { st0 with userContributions := fun k =>
        if k = userIden then c.iden :: st0.userContributions k
        else st0.userContributions k }
  let st2 := match jvalAsInt c.amount, wf 2 with
    | some n, false =>
      { st1 with eventTotals := fun e f =>
          if e = ev.iden ∧ f = key then st1.eventTotals e f + n
          else st1.eventTotals e f }
    | _, _ => st1
  let st3 := match jvalAsInt c.amount, wf 3 with
    | some n, false =>
      { st2 with politicianTotals := fun p f =>
          if p = ev.politician ∧ f = key then st2.politicianTotals p f + n
          else st2.politicianTotals p f }
    | _, _ => st2
  let st4 := match jvalAsInt c.amount, wf 4 with
    | some n, false => { st3 with contributionsSum := st3.contributionsSum + n }
    | _, _ => st3
  match jvalAsInt c.amount, wf 5 with
  | some n, false =>
    { st4 with userContributionsSum := fun k =>
        if k = userIden then st4.userContributionsSum k + n
        else st4.userContributionsSum k }
  | _, _ => st4

/-- The request built for `stripe.charges.create` at lines 275-283. -/
def ccChargeReq (amount : JVal) (customerId : String) (event : Event)
    (pac : Pac) (support : Bool) : ChargeRequest :=
  ⟨jsMul100 amount, "usd", customerId, event.iden, pac.iden, support⟩

/-- The contribution record built at lines 291-300 after a successful
charge. -/
def ccContribution (newIden : String) (now : Int) (chargeId : String)
    (amount : JVal) (event : Event) (pac : Pac) (support : Bool) :
    Contribution :=
  ⟨newIden, now, now, chargeId, amount, event.iden, pac.iden, support⟩

/-- The charge-then-record tail of the create-contribution handler
(lines 275-358), reached once validation has resolved the customer id, the
event, the PAC and the support flag: call the gateway; on error reply 400
with nothing written, on success build the contribution record, run the six
bookkeeping writes and reply 200. -/
def chargeAndRecord (st : Store) (userIden : String)
    (gw : ChargeRequest → Except Unit Charge) (wf : Nat → Bool)
    (newIden : String) (now : Int) (amount : JVal) (customerId : String)
    (event : Event) (pac : Pac) (support : Bool) : CCResult :=
  let chargeReq := ccChargeReq amount customerId event pac support
  match gw chargeReq with
  | .error _ => ⟨400, st, some chargeReq⟩
  | .ok ch =>
    ⟨200, postChargeWrites st userIden
        (ccContribution newIden now ch.id amount event pac support)
        event support wf,
      some chargeReq⟩

/-- The `/v1/create-contribution` handler (lines 219-361).  The three
parallel lookups (customer id, event, PAC) are reads and mutate nothing;
`gw` is the Stripe gateway (`stripe.charges.create`), `wf` the failure
oracle for the six post-charge redis writes, `newIden`/`now` the values of
`generateIden()` and `Date.now()/1000` at the construction of the
contribution record. -/
def createContribution (eventIden pacIden : String) (amount : JVal)
    (userIden : String) (st : Store)
    (gw : ChargeRequest → Except Unit Charge) (wf : Nat → Bool)
    (newIden : String) (now : Int) : CCResult :=
  if bodyPresent eventIden pacIden amount then
    match st.userIdenToStripeCustomerId userIden with
    | none => ⟨400, st, none⟩
    | some customerId =>
      match st.events eventIden with
      | none => ⟨400, st, none⟩
      | some event =>
        match st.pacs pacIden with
        | none => ⟨400, st, none⟩
        | some pac =>
          if event.supportPacs.contains pac.iden then
            chargeAndRecord st userIden gw wf newIden now amount customerId event pac true
          else if event.opposePacs.contains pac.iden then
            chargeAndRecord st userIden gw wf newIden now amount customerId event pac false
          else ⟨400, st, none⟩
  else ⟨400, st, none⟩

/-!
## Execution order of the post-charge writes

`async.series` (line 354) runs its task list one task at a time, each task
starting only after the previous one called back; because each of the six
post-charge tasks swallows its own redis error and calls back successfully,
all six always run.  The trace below records the begin/end events the
series combinator produces for a task list. -/

/-- A scheduling event: task `i` starts, or task `i` completes. -/
inductive TraceEv where
  | start (i : Nat)
  | finish (i : Nat)
deriving DecidableEq, Repr

/-- The begin/end trace `async.series` produces on a list of tasks none of
which reports an error: strictly sequential, in list order. -/
def asyncSeriesTrace (tasks : List Nat) : List TraceEv :=
  tasks.flatMap (fun i => [TraceEv.start i, TraceEv.finish i])

/-- The task indices of the six post-charge writes, in the order the source
pushes them (lines 303-352): 0 contribution record, 1 list prepend,
2 event counter, 3 politician counter, 4 global sum, 5 user sum. -/
def postChargeTasks : List Nat := [0, 1, 2, 3, 4, 5]

/-- The execution trace of the post-charge bookkeeping phase. -/
def postChargeTrace : List TraceEv := asyncSeriesTrace postChargeTasks

/-- Position of the first occurrence of an event in a trace (length of the
trace when absent). -/
def tracePos (t : List TraceEv) (e : TraceEv) : Nat := t.indexOf e

/-!
## The `/v1/authenticate` handler (lines 45-119)
-/

/-- The verified Facebook identity `getFacebookUserInfo` hands back. -/
structure FBInfo where
  id : String
  name : String
  email : String
deriving DecidableEq, Repr

/-- The observable outcome of `/v1/authenticate`: a JSON access-token
response, or a bare status. -/
inductive AuthResp where
  | token (t : String)
  | status (n : Nat)
deriving DecidableEq, Repr

/-- The redis hash each of the four new-user writes targets. -/
inductive AuthHash where
  | users
  | idenToAccess
  | accessToIden
  | facebookToIden
deriving DecidableEq, Repr

/-- The order in which the new-user branch pushes its `async.series` tasks
(lines 82-101): user record, then user-iden→access-token, then
access-token→user-iden, then facebook-id→user-iden last. -/
def authWriteOrder : List AuthHash :=
  [.users, .idenToAccess, .accessToIden, .facebookToIden]

/-- The `/v1/authenticate` handler.  `fb` is the outcome of
`getFacebookUserInfo` (`none` when the provider rejected the token),
`wf i = true` means the i-th `hset` of the new-user series errored (writing
nothing); `async.series` aborts at the first error.  `newIden` and
`newToken` are the values of `generateIden()` and the random token,
`now` of `Date.now()/1000`.  Returns the response, the resulting store and
the list of hashes written, in write order. -/
def authenticate (fb : Option FBInfo) (st : Store) (wf : Nat → Bool)
    (newIden newToken : String) (now : Int) :
    AuthResp × Store × List AuthHash :=
  match fb with
  | none => (.status 400, st, [])
  | some info =>
    match st.facebookUserIdToUserIden info.id with
    | some userIden =>
      match st.userIdenToAccessToken userIden with
      | some tok => (.token tok, st, [])
      | none => (.status 500, st, [])
    | none =>
      let user : User :=
        ⟨newIden, info.id, info.name, info.email, none, none, none, none, now, now⟩
      if wf 0 then (.status 500, st, []) else
      let st0 := { st with users := hashSet st.users user.iden user }
      if wf 1 then (.status 500, st0, [.users]) else
      let st1 := { st0 with userIdenToAccessToken := hashSet st0.userIdenToAccessToken user.iden newToken }
      if wf 2 then (.status 500, st1, [.users, .idenToAccess]) else
      let st2 := { st1 with accessTokenToUserIden := hashSet st1.accessTokenToUserIden newToken user.iden }
      if wf 3 then (.status 500, st2, [.users, .idenToAccess, .accessToIden]) else
      let st3 := { st2 with facebookUserIdToUserIden := hashSet st2.facebookUserIdToUserIden info.id user.iden }
      (.token newToken, st3, authWriteOrder)

/-!
## The `/v1/update-profile` handler (lines 148-176)
-/

/-- The profile patch carried in the request body; each field may be
absent. -/
structure Patch where
  name : Option String
  occupation : Option String
  employer : Option String
  streetAddress : Option String
  cityStateZip : Option String
deriving DecidableEq, Repr

/-- Truthiness of an optional string body field: present and non-empty. -/
def strTruthy : Option String → Bool
  | some s => s != ""
  | none => false

/-- The in-memory mutation of `req.user` performed by the update-profile
handler (lines 149-166): each truthy patch field overwrites the profile
field, then `modified` is set to now. -/
def applyPatch (u : User) (p : Patch) (now : Int) : User :=
  let u1 := if strTruthy p.name then { u with name := p.name.getD u.name } else u
  let u2 := if strTruthy p.occupation then { u1 with occupation := p.occupation } else u1
  let u3 := if strTruthy p.employer then { u2 with employer := p.employer } else u2
  let u4 := if strTruthy p.streetAddress then
    { u3 with streetAddress := p.streetAddress } else u3
  let u5 := if strTruthy p.cityStateZip then
    { u4 with cityStateZip := p.cityStateZip } else u4
  { u5 with modified := now }

/-- The `/v1/update-profile` handler: mutate the profile, persist it with a
single `hset` (500 when that write errors, 200 otherwise). -/
def updateProfile (u : User) (p : Patch) (st : Store) (writeErr : Bool)
    (now : Int) : Nat × Store :=
  let u2 := applyPatch u p now
  if writeErr then (500, st)
  else (200, { st with users := hashSet st.users u2.iden u2 })

/-!
## The `/v1/set-card` handler (lines 178-217)
-/

/-- The observable outcome of `/v1/set-card`.  `crash` is the uncaught
exception thrown when the create branch dereferences `customer.id` after
`stripe.customers.create` called back with an error and no customer
(line 206: the callback never checks its `err` argument). -/
inductive SetCardOutcome where
  | status (n : Nat)
  | crash
deriving DecidableEq, Repr

/-- The `/v1/set-card` handler.  `updateOutcome` is the result of
`stripe.customers.update` on the existing-customer branch, `createOutcome`
of `stripe.customers.create` (`.ok id` carries the new customer id), and
`persistErr` says whether the `hset` persisting the new mapping errors. -/
def setCard (cardToken : Option String) (userIden : String) (st : Store)
    (updateOutcome : Except Unit Unit) (createOutcome : Except Unit String)
    (persistErr : Bool) : SetCardOutcome × Store :=
  if strTruthy cardToken then
    match st.userIdenToStripeCustomerId userIden with
    | some _ =>
      match updateOutcome with
      | .error _ => (.status 400, st)
      | .ok _ => (.status 200, st)
    | none =>
      match createOutcome with
      | .error _ => (.crash, st)
      | .ok newCustomerId =>
        if persistErr then (.status 400, st)
        else (.status 200, { st with userIdenToStripeCustomerId := hashSet st.userIdenToStripeCustomerId userIden newCustomerId })
  else (.status 400, st)

/-!
## Concrete fixtures for witnesses and counterexamples
-/

/-- A store with nothing in it. -/
def emptyStore : Store where
  users := fun _ => none
  userIdenToAccessToken := fun _ => none
  accessTokenToUserIden := fun _ => none
  facebookUserIdToUserIden := fun _ => none
  userIdenToStripeCustomerId := fun _ => none
  events := fun _ => none
  pacs := fun _ => none
  contributions := fun _ => none
  userContributions := fun _ => []
  eventTotals := fun _ _ => 0
  politicianTotals := fun _ _ => 0
  contributionsSum := 0
  userContributionsSum := fun _ => 0

/-- An event supporting PAC `P1` only. -/
def demoEvent : Event := ⟨"E1", "POL1", ["P1"], []⟩

/-- An event listing PAC `P1` in BOTH its support and oppose lists. -/
def bothEvent : Event := ⟨"E2", "POL1", ["P1"], ["P1"]⟩

/-- An event listing PAC `P1` in neither list. -/
def neitherEvent : Event := ⟨"E3", "POL1", [], []⟩

/-- The PAC the fixtures reference. -/
def demoPac : Pac := ⟨"P1"⟩

/-- A store where user `U1` has Stripe customer `cus1`, the three demo
events exist and PAC `P1` exists. -/
def demoStore : Store :=
  { emptyStore with
    userIdenToStripeCustomerId := hashSet emptyStore.userIdenToStripeCustomerId "U1" "cus1"
    events := fun k =>
      if k = "E1" then some demoEvent
      else if k = "E2" then some bothEvent
      else if k = "E3" then some neitherEvent
      else none
    pacs := hashSet emptyStore.pacs "P1" demoPac }

/-- A gateway that accepts every charge with charge id `ch1`. -/
def gwOk : ChargeRequest → Except Unit Charge := fun _ => .ok ⟨"ch1"⟩

/-- A gateway that rejects every charge. -/
def gwFail : ChargeRequest → Except Unit Charge := fun _ => .error ()

/-- The failure oracle under which every redis write succeeds. -/
def noFail : Nat → Bool := fun _ => false

/-- The failure oracle under which every redis write errors. -/
def allFail : Nat → Bool := fun _ => true

/-!
## Path lemmas for the create-contribution handler
-/

/-- When validation resolves everything and the PAC is in the support list,
the handler runs the charge tail with support = true. -/
theorem createContribution_path_support (eventIden pacIden : String)
    (amount : JVal) (userIden : String) (st : Store)
    (gw : ChargeRequest → Except Unit Charge) (wf : Nat → Bool)
    (newIden : String) (now : Int) (customerId : String) (event : Event)
    (pac : Pac) (hb : bodyPresent eventIden pacIden amount = true)
    (hc : st.userIdenToStripeCustomerId userIden = some customerId)
    (he : st.events eventIden = some event)
    (hp : st.pacs pacIden = some pac)
    (hs : pac.iden ∈ event.supportPacs) :
    createContribution eventIden pacIden amount userIden st gw wf newIden now =
      chargeAndRecord st userIden gw wf newIden now amount customerId event pac true := by
  unfold createContribution
  rw [hb, hc, he, hp]
  simp [hs]

/-- When validation resolves everything and the PAC is in the oppose list
but not in the support list, the handler runs the charge tail with
support = false. -/
theorem createContribution_path_oppose (eventIden pacIden : String)
    (amount : JVal) (userIden : String) (st : Store)
    (gw : ChargeRequest → Except Unit Charge) (wf : Nat → Bool)
    (newIden : String) (now : Int) (customerId : String) (event : Event)
    (pac : Pac) (hb : bodyPresent eventIden pacIden amount = true)
    (hc : st.userIdenToStripeCustomerId userIden = some customerId)
    (he : st.events eventIden = some event)
    (hp : st.pacs pacIden = some pac)
    (hs : pac.iden ∉ event.supportPacs)
    (ho : pac.iden ∈ event.opposePacs) :
    createContribution eventIden pacIden amount userIden st gw wf newIden now =
      chargeAndRecord st userIden gw wf newIden now amount customerId event pac false := by
  unfold createContribution
  rw [hb, hc, he, hp]
  simp [hs, ho]

/-- When validation resolves everything but the PAC is in neither list, the
handler replies 400, attempts no charge and leaves the store unchanged. -/
theorem createContribution_path_neither (eventIden pacIden : String)
    (amount : JVal) (userIden : String) (st : Store)
    (gw : ChargeRequest → Except Unit Charge) (wf : Nat → Bool)
    (newIden : String) (now : Int) (customerId : String) (event : Event)
    (pac : Pac) (hb : bodyPresent eventIden pacIden amount = true)
    (hc : st.userIdenToStripeCustomerId userIden = some customerId)
    (he : st.events eventIden = some event)
    (hp : st.pacs pacIden = some pac)
    (hs : pac.iden ∉ event.supportPacs)
    (ho : pac.iden ∉ event.opposePacs) :
    createContribution eventIden pacIden amount userIden st gw wf newIden now =
      ⟨400, st, none⟩ := by
  unfold createContribution
  rw [hb, hc, he, hp]
  simp [hs, ho]

/-- The charge tail always hands the gateway exactly the built request. -/
theorem chargeAndRecord_chargeAttempted (st : Store) (userIden : String)
    (gw : ChargeRequest → Except Unit Charge) (wf : Nat → Bool)
    (newIden : String) (now : Int) (amount : JVal) (customerId : String)
    (event : Event) (pac : Pac) (support : Bool) :
    (chargeAndRecord st userIden gw wf newIden now amount customerId event pac support).chargeAttempted =
      some (ccChargeReq amount customerId event pac support) := by
  unfold chargeAndRecord
  cases h : gw (ccChargeReq amount customerId event pac support) <;> simp [h]

/-- Which support flag the validation derives for a PAC and event, per the
if/else-if at lines 265-273: the support list is checked first, so a PAC in
the support list gets support = true even when it is also in the oppose
list. -/
def polarityOf (event : Event) (pac : Pac) (support : Bool) : Prop :=
  (support = true ∧ pac.iden ∈ event.supportPacs) ∨
  (support = false ∧ pac.iden ∉ event.supportPacs ∧ pac.iden ∈ event.opposePacs)

/-- Whenever the validation derives a support flag, the handler runs the
charge tail with that flag. -/
theorem createContribution_path_charge (eventIden pacIden : String)
    (amount : JVal) (userIden : String) (st : Store)
    (gw : ChargeRequest → Except Unit Charge) (wf : Nat → Bool)
    (newIden : String) (now : Int) (customerId : String) (event : Event)
    (pac : Pac) (support : Bool)
    (hb : bodyPresent eventIden pacIden amount = true)
    (hc : st.userIdenToStripeCustomerId userIden = some customerId)
    (he : st.events eventIden = some event)
    (hp : st.pacs pacIden = some pac)
    (hpol : polarityOf event pac support) :
    createContribution eventIden pacIden amount userIden st gw wf newIden now =
      chargeAndRecord st userIden gw wf newIden now amount customerId event pac support := by
  rcases hpol with ⟨hs, hmem⟩ | ⟨hs, hnmem, hmem⟩
  · subst hs
    exact createContribution_path_support eventIden pacIden amount userIden st
      gw wf newIden now customerId event pac hb hc he hp hmem
  · subst hs
    exact createContribution_path_oppose eventIden pacIden amount userIden st
      gw wf newIden now customerId event pac hb hc he hp hnmem hmem

/-- C1 counterexample: for a request whose PAC appears in BOTH the event's
support and oppose lists, the handler does not fail with BadRequest — it
proceeds to attempt the charge (with support = true) and reports 200,
because the else-if at lines 265-273 only tests the oppose list when the
support-list test failed. -/
theorem c1_both_lists_charge_attempted :
    (createContribution "E2" "P1" (.num 25) "U1" demoStore gwOk noFail "c1" 7).chargeAttempted
        = some ⟨.int 2500, "usd", "cus1", "E2", "P1", true⟩ ∧
    (createContribution "E2" "P1" (.num 25) "U1" demoStore gwOk noFail "c1" 7).status = 200 ∧
    "P1" ∈ bothEvent.supportPacs ∧ "P1" ∈ bothEvent.opposePacs := by
  refine ⟨?_, ?_, ?_, ?_⟩ <;> decide

/-- C1 (amended): once the billing customer, Event and PAC are resolved,
membership of the PAC's identifier in the Event's support list (regardless
of the oppose list) proceeds to the charge with support = true; otherwise
membership in the oppose list proceeds with support = false; membership in
neither list fails with BadRequest before any charge is attempted and
leaves the store unchanged. -/
theorem c1_support_decision (eventIden pacIden : String) (amount : JVal)
    (userIden : String) (st : Store)
    (gw : ChargeRequest → Except Unit Charge) (wf : Nat → Bool)
    (newIden : String) (now : Int) (customerId : String) (event : Event)
    (pac : Pac) (hb : bodyPresent eventIden pacIden amount = true)
    (hc : st.userIdenToStripeCustomerId userIden = some customerId)
    (he : st.events eventIden = some event)
    (hp : st.pacs pacIden = some pac) :
    (pac.iden ∈ event.supportPacs →
      (createContribution eventIden pacIden amount userIden st gw wf newIden now).chargeAttempted =
        some (ccChargeReq amount customerId event pac true)) ∧
    (pac.iden ∉ event.supportPacs → pac.iden ∈ event.opposePacs →
      (createContribution eventIden pacIden amount userIden st gw wf newIden now).chargeAttempted =
        some (ccChargeReq amount customerId event pac false)) ∧
    (pac.iden ∉ event.supportPacs → pac.iden ∉ event.opposePacs →
      createContribution eventIden pacIden amount userIden st gw wf newIden now =
        ⟨400, st, none⟩) := by
  refine ⟨fun hs => ?_, fun hs ho => ?_, fun hs ho => ?_⟩
  · rw [createContribution_path_support eventIden pacIden amount userIden st
      gw wf newIden now customerId event pac hb hc he hp hs,
      chargeAndRecord_chargeAttempted]
  · rw [createContribution_path_oppose eventIden pacIden amount userIden st
      gw wf newIden now customerId event pac hb hc he hp hs ho,
      chargeAndRecord_chargeAttempted]
  · exact createContribution_path_neither eventIden pacIden amount userIden st
      gw wf newIden now customerId event pac hb hc he hp hs ho

/-- C1 witness: the amended support decision applied at a concrete store in
which event `E1` supports PAC `P1`. -/
theorem c1_support_decision_witness :
    bodyPresent "E1" "P1" (.num 25) = true ∧
    demoStore.userIdenToStripeCustomerId "U1" = some "cus1" ∧
    demoStore.events "E1" = some demoEvent ∧
    demoStore.pacs "P1" = some demoPac ∧
    "P1" ∈ demoEvent.supportPacs ∧
    (createContribution "E1" "P1" (.num 25) "U1" demoStore gwOk noFail "c1" 7).chargeAttempted =
      some (ccChargeReq (.num 25) "cus1" demoEvent demoPac true) :=
  ⟨by decide, by decide, by decide, by decide, by decide,
    (c1_support_decision "E1" "P1" (.num 25) "U1" demoStore gwOk noFail "c1" 7
      "cus1" demoEvent demoPac (by decide) (by decide) (by decide) (by decide)).1
      (by decide)⟩

/-- C2: whenever the gateway accepts the charge, the handler reports 200,
for EVERY write-failure oracle `wf` — any or all of the six post-charge
bookkeeping writes may fail without changing the reported outcome, because
each task swallows its redis error (lines 305-308 etc.) and the series
callback sends 200 without looking at an error (lines 354-356). -/
theorem c2_success_despite_bookkeeping_failures (eventIden pacIden : String)
    (amount : JVal) (userIden : String) (st : Store)
    (gw : ChargeRequest → Except Unit Charge) (wf : Nat → Bool)
    (newIden : String) (now : Int) (customerId : String) (event : Event)
    (pac : Pac) (support : Bool) (ch : Charge)
    (hb : bodyPresent eventIden pacIden amount = true)
    (hc : st.userIdenToStripeCustomerId userIden = some customerId)
    (he : st.events eventIden = some event)
    (hp : st.pacs pacIden = some pac)
    (hpol : polarityOf event pac support)
    (hgw : gw (ccChargeReq amount customerId event pac support) = .ok ch) :
    (createContribution eventIden pacIden amount userIden st gw wf newIden now).status = 200 := by
  rw [createContribution_path_charge eventIden pacIden amount userIden st
    gw wf newIden now customerId event pac support hb hc he hp hpol]
  simp only [chargeAndRecord]
  rw [hgw]

/-- C2 witness: at the demo store with every one of the six bookkeeping
writes failing, the handler still reports 200. -/
theorem c2_success_despite_bookkeeping_failures_witness :
    bodyPresent "E1" "P1" (.num 25) = true ∧
    demoStore.userIdenToStripeCustomerId "U1" = some "cus1" ∧
    demoStore.events "E1" = some demoEvent ∧
    demoStore.pacs "P1" = some demoPac ∧
    polarityOf demoEvent demoPac true ∧
    gwOk (ccChargeReq (.num 25) "cus1" demoEvent demoPac true) = .ok ⟨"ch1"⟩ ∧
    (createContribution "E1" "P1" (.num 25) "U1" demoStore gwOk allFail "c1" 7).status = 200 :=
  ⟨by decide, by decide, by decide, by decide, Or.inl ⟨rfl, by decide⟩, rfl,
    c2_success_despite_bookkeeping_failures "E1" "P1" (.num 25) "U1" demoStore
      gwOk allFail "c1" 7 "cus1" demoEvent demoPac true ⟨"ch1"⟩
      (by decide) (by decide) (by decide) (by decide)
      (Or.inl ⟨rfl, by decide⟩) rfl⟩

/-- C3 counterexample: the six post-charge writes are not fired
concurrently — `async.series` (line 354) runs them strictly one after
another, so in the execution trace the list-prepend write (task 1) starts
only after the contribution-record write (task 0) has completed,
contradicting "no one of the six writes is required to start only after
another completes". -/
theorem c3_series_not_parallel :
    postChargeTrace =
      [.start 0, .finish 0, .start 1, .finish 1, .start 2, .finish 2,
       .start 3, .finish 3, .start 4, .finish 4, .start 5, .finish 5] ∧
    tracePos postChargeTrace (.finish 0) < tracePos postChargeTrace (.start 1) := by
  constructor <;> decide

/-- C3 (amended): the six post-charge writes are executed sequentially, in
the order the source pushes them (record, list prepend, event counter,
politician counter, global sum, user sum): each write starts only after the
previous one completed.  (Since every task swallows its own error, all six
always run and no failure aborts the sequence.) -/
theorem c3_sequential_writes (i : Nat) (h : i + 1 < 6) :
    tracePos postChargeTrace (.finish i) < tracePos postChargeTrace (.start (i + 1)) := by
  have h5 : i < 5 := by omega
  interval_cases i <;> decide

/-- C3 witness: sequentiality at the first pair of writes. -/
theorem c3_sequential_writes_witness :
    0 + 1 < 6 ∧
    tracePos postChargeTrace (.finish 0) < tracePos postChargeTrace (.start (0 + 1)) :=
  ⟨by decide, c3_sequential_writes 0 (by decide)⟩

/-- C4: when validation succeeded but the gateway rejects or errors on the
charge, the handler reports 400 and the store is exactly as it was — no
contribution record, list entry or counter update (lines 284-288). -/
theorem c4_gateway_failure_no_writes (eventIden pacIden : String)
    (amount : JVal) (userIden : String) (st : Store)
    (gw : ChargeRequest → Except Unit Charge) (wf : Nat → Bool)
    (newIden : String) (now : Int) (customerId : String) (event : Event)
    (pac : Pac) (support : Bool)
    (hb : bodyPresent eventIden pacIden amount = true)
    (hc : st.userIdenToStripeCustomerId userIden = some customerId)
    (he : st.events eventIden = some event)
    (hp : st.pacs pacIden = some pac)
    (hpol : polarityOf event pac support)
    (hgw : gw (ccChargeReq amount customerId event pac support) = .error ()) :
    (createContribution eventIden pacIden amount userIden st gw wf newIden now).status = 400 ∧
    (createContribution eventIden pacIden amount userIden st gw wf newIden now).store = st := by
  rw [createContribution_path_charge eventIden pacIden amount userIden st
    gw wf newIden now customerId event pac support hb hc he hp hpol]
  simp only [chargeAndRecord]
  rw [hgw]
  exact ⟨rfl, rfl⟩

/-- C4 witness: a rejecting gateway at the demo store leaves the store
untouched and reports 400. -/
theorem c4_gateway_failure_no_writes_witness :
    bodyPresent "E1" "P1" (.num 25) = true ∧
    demoStore.userIdenToStripeCustomerId "U1" = some "cus1" ∧
    demoStore.events "E1" = some demoEvent ∧
    demoStore.pacs "P1" = some demoPac ∧
    polarityOf demoEvent demoPac true ∧
    gwFail (ccChargeReq (.num 25) "cus1" demoEvent demoPac true) = .error () ∧
    ((createContribution "E1" "P1" (.num 25) "U1" demoStore gwFail noFail "c1" 7).status = 400 ∧
     (createContribution "E1" "P1" (.num 25) "U1" demoStore gwFail noFail "c1" 7).store = demoStore) :=
  ⟨by decide, by decide, by decide, by decide, Or.inl ⟨rfl, by decide⟩, rfl,
    c4_gateway_failure_no_writes "E1" "P1" (.num 25) "U1" demoStore gwFail
      noFail "c1" 7 "cus1" demoEvent demoPac true
      (by decide) (by decide) (by decide) (by decide)
      (Or.inl ⟨rfl, by decide⟩) rfl⟩

/-- C5 counterexample: for a fresh external identity the handler performs
its four writes with the user-iden→access-token map SECOND and the
access-token→user-iden map THIRD (lines 87-96) — not, as claimed, the
token-to-user-iden map second and the user-iden-to-token map third. -/
theorem c5_write_order_swapped :
    (authenticate (some ⟨"fb1", "Ann", "ann@example.com"⟩) emptyStore noFail
        "U1" "tok1" 3).2.2 =
      [.users, .idenToAccess, .accessToIden, .facebookToIden] ∧
    ([AuthHash.users, .idenToAccess, .accessToIden, .facebookToIden] ≠
      [AuthHash.users, .accessToIden, .idenToAccess, .facebookToIden]) := by
  constructor <;> decide

/-- C5 (amended): for a fresh external identity the handler persists, in
this exact order: (1) user record, (2) user-iden→access-token map,
(3) access-token→user-iden map, (4) facebook-id→user-iden map written last;
each write starts only after the previous completed (`async.series`), and
the first failing write aborts the remaining writes and reports the storage
error as a 500. -/
theorem c5_write_sequence (info : FBInfo) (st : Store) (wf : Nat → Bool)
    (newIden newToken : String) (now : Int)
    (hnew : st.facebookUserIdToUserIden info.id = none) :
    ((∀ i, wf i = false) →
      (authenticate (some info) st wf newIden newToken now).1 = .token newToken ∧
      (authenticate (some info) st wf newIden newToken now).2.2 = authWriteOrder) ∧
    (∀ k, k < 4 → (∀ j, j < k → wf j = false) → wf k = true →
      (authenticate (some info) st wf newIden newToken now).1 = .status 500 ∧
      (authenticate (some info) st wf newIden newToken now).2.2 =
        authWriteOrder.take k) := by
  constructor
  · intro h
    simp [authenticate, hnew, h 0, h 1, h 2, h 3]
  · intro k hk hprev hfk
    interval_cases k
    · simp [authenticate, hnew, hfk]
    · simp [authenticate, hnew, hprev 0 (by omega), hfk, authWriteOrder]
    · simp [authenticate, hnew, hprev 0 (by omega), hprev 1 (by omega), hfk, authWriteOrder]
    · simp [authenticate, hnew, hprev 0 (by omega), hprev 1 (by omega),
        hprev 2 (by omega), hfk, authWriteOrder]

/-- C5 witness: the amended write sequence at a fresh identity with no
write failures. -/
theorem c5_write_sequence_witness :
    emptyStore.facebookUserIdToUserIden "fb1" = none ∧
    (authenticate (some ⟨"fb1", "Ann", "ann@example.com"⟩) emptyStore noFail
        "U1" "tok1" 3).1 = .token "tok1" ∧
    (authenticate (some ⟨"fb1", "Ann", "ann@example.com"⟩) emptyStore noFail
        "U1" "tok1" 3).2.2 = authWriteOrder :=
  ⟨rfl, (c5_write_sequence ⟨"fb1", "Ann", "ann@example.com"⟩ emptyStore noFail
      "U1" "tok1" 3 rfl).1 (fun _ => rfl)⟩

/-- C6: authenticate is idempotent at the mapping level — with no storage
errors, a first call for a fresh external identity returns the newly minted
token, and a second call for the same identity (whatever fresh iden, token
and clock it would otherwise use) finds the stored facebook-id mapping and
returns that same token. -/
theorem c6_authenticate_idempotent (info : FBInfo) (st : Store)
    (newIden newToken newIden2 newToken2 : String) (now now2 : Int)
    (hnew : st.facebookUserIdToUserIden info.id = none) :
    (authenticate (some info) st noFail newIden newToken now).1 = .token newToken ∧
    (authenticate (some info)
        (authenticate (some info) st noFail newIden newToken now).2.1
        noFail newIden2 newToken2 now2).1 = .token newToken := by
  constructor
  · simp [authenticate, hnew, noFail]
  · simp [authenticate, hnew, noFail, hashSet]

/-- C6 witness: two calls for the same facebook identity on the empty store
both return the token minted by the first call. -/
theorem c6_authenticate_idempotent_witness :
    emptyStore.facebookUserIdToUserIden "fb1" = none ∧
    (authenticate (some ⟨"fb1", "Ann", "ann@example.com"⟩) emptyStore noFail
        "U1" "tok1" 3).1 = .token "tok1" ∧
    (authenticate (some ⟨"fb1", "Ann", "ann@example.com"⟩)
        (authenticate (some ⟨"fb1", "Ann", "ann@example.com"⟩) emptyStore noFail
          "U1" "tok1" 3).2.1
        noFail "U2" "tok2" 9).1 = .token "tok1" :=
  ⟨rfl, c6_authenticate_idempotent ⟨"fb1", "Ann", "ann@example.com"⟩ emptyStore
    "U1" "tok1" "U2" "tok2" 3 9 rfl⟩

/-- C7: evaluation of the set-card handler on its two failure paths for a
user with no existing billing-customer reference.  A failing external
customer-create call is NOT reported as a gateway error: the create
callback never inspects its `err` argument (line 205) and dereferences
`customer.id` on the absent customer (line 206), an uncaught crash.  A
failing persist of the new user→customer mapping is reported with status
400 (line 208) — the same client-error status used for gateway rejections,
not a distinct server-failure status. -/
theorem c7_setcard_error_reporting :
    setCard (some "tok_visa") "U1" emptyStore (.ok ()) (.error ()) false =
      (.crash, emptyStore) ∧
    (setCard (some "tok_visa") "U1" emptyStore (.ok ()) (.ok "cus9") true).1 =
      .status 400 ∧
    (setCard (some "tok_visa") "U2" emptyStore (.ok ()) (.error ()) false).1 ≠
      .status 400 := by
  refine ⟨rfl, rfl, ?_⟩
  decide

/-- The effect of the six bookkeeping writes when no redis operation fails
and the contribution amount is the integer `n`: the record is stored under
its iden, the iden is prepended to the user's list, and each of the four
counters grows by exactly `n` (major units). -/
theorem postChargeWrites_noFail_spec (st : Store) (userIden : String)
    (c : Contribution) (ev : Event) (support : Bool) (n : Int)
    (ha : c.amount = .num n) :
    (postChargeWrites st userIden c ev support noFail).contributions c.iden = some c ∧
    (postChargeWrites st userIden c ev support noFail).userContributions userIden =
      c.iden :: st.userContributions userIden ∧
    (postChargeWrites st userIden c ev support noFail).eventTotals ev.iden
        (if support then "support" else "oppose") =
      st.eventTotals ev.iden (if support then "support" else "oppose") + n ∧
    (postChargeWrites st userIden c ev support noFail).politicianTotals ev.politician
        (if support then "support" else "oppose") =
      st.politicianTotals ev.politician (if support then "support" else "oppose") + n ∧
    (postChargeWrites st userIden c ev support noFail).contributionsSum =
      st.contributionsSum + n ∧
    (postChargeWrites st userIden c ev support noFail).userContributionsSum userIden =
      st.userContributionsSum userIden + n := by
  simp [postChargeWrites, ha, noFail, jvalAsInt, hashSet]

/-- C8: with an integer dollar amount `n`, the gateway is charged exactly
`n * 100` (minor units, line 276); the contribution record stores the
original body amount `n` (line 296); and each of the four counters is
incremented by the major-unit amount `n` (lines 321, 330, 338, 346) — the
×100 conversion happens only in the charge request. -/
theorem c8_minor_units_only_at_gateway (eventIden pacIden : String) (n : Int)
    (userIden : String) (st : Store)
    (gw : ChargeRequest → Except Unit Charge) (newIden : String) (now : Int)
    (customerId : String) (event : Event) (pac : Pac) (support : Bool)
    (ch : Charge)
    (hb : bodyPresent eventIden pacIden (.num n) = true)
    (hc : st.userIdenToStripeCustomerId userIden = some customerId)
    (he : st.events eventIden = some event)
    (hp : st.pacs pacIden = some pac)
    (hpol : polarityOf event pac support)
    (hgw : gw (ccChargeReq (.num n) customerId event pac support) = .ok ch) :
    (createContribution eventIden pacIden (.num n) userIden st gw noFail newIden now).chargeAttempted =
      some (ccChargeReq (.num n) customerId event pac support) ∧
    (ccChargeReq (.num n) customerId event pac support).amount = .int (n * 100) ∧
    (createContribution eventIden pacIden (.num n) userIden st gw noFail newIden now).store.contributions newIden =
      some (ccContribution newIden now ch.id (.num n) event pac support) ∧
    (ccContribution newIden now ch.id (.num n) event pac support).amount = .num n ∧
    (createContribution eventIden pacIden (.num n) userIden st gw noFail newIden now).store.eventTotals
        event.iden (if support then "support" else "oppose") =
      st.eventTotals event.iden (if support then "support" else "oppose") + n ∧
    (createContribution eventIden pacIden (.num n) userIden st gw noFail newIden now).store.politicianTotals
        event.politician (if support then "support" else "oppose") =
      st.politicianTotals event.politician (if support then "support" else "oppose") + n ∧
    (createContribution eventIden pacIden (.num n) userIden st gw noFail newIden now).store.contributionsSum =
      st.contributionsSum + n ∧
    (createContribution eventIden pacIden (.num n) userIden st gw noFail newIden now).store.userContributionsSum
        userIden = st.userContributionsSum userIden + n := by
  rw [createContribution_path_charge eventIden pacIden (.num n) userIden st
    gw noFail newIden now customerId event pac support hb hc he hp hpol]
  simp only [chargeAndRecord]
  rw [hgw]
  have hw := postChargeWrites_noFail_spec st userIden
    (ccContribution newIden now ch.id (.num n) event pac support) event support n rfl
  exact ⟨rfl, rfl, hw.1, rfl, hw.2.2.1, hw.2.2.2.1, hw.2.2.2.2.1, hw.2.2.2.2.2⟩

/-- C8 witness: a 25-dollar contribution at the demo store charges 2500
cents while the stored record and every counter use 25. -/
theorem c8_minor_units_witness :
    bodyPresent "E1" "P1" (.num 25) = true ∧
    demoStore.userIdenToStripeCustomerId "U1" = some "cus1" ∧
    demoStore.events "E1" = some demoEvent ∧
    demoStore.pacs "P1" = some demoPac ∧
    polarityOf demoEvent demoPac true ∧
    gwOk (ccChargeReq (.num 25) "cus1" demoEvent demoPac true) = .ok ⟨"ch1"⟩ ∧
    ((createContribution "E1" "P1" (.num 25) "U1" demoStore gwOk noFail "c1" 7).chargeAttempted =
        some (ccChargeReq (.num 25) "cus1" demoEvent demoPac true) ∧
      (ccChargeReq (.num 25) "cus1" demoEvent demoPac true).amount = .int (25 * 100) ∧
      (createContribution "E1" "P1" (.num 25) "U1" demoStore gwOk noFail "c1" 7).store.contributions "c1" =
        some (ccContribution "c1" 7 "ch1" (.num 25) demoEvent demoPac true) ∧
      (ccContribution "c1" 7 "ch1" (.num 25) demoEvent demoPac true).amount = .num 25 ∧
      (createContribution "E1" "P1" (.num 25) "U1" demoStore gwOk noFail "c1" 7).store.eventTotals
          demoEvent.iden (if true then "support" else "oppose") =
        demoStore.eventTotals demoEvent.iden (if true then "support" else "oppose") + 25 ∧
      (createContribution "E1" "P1" (.num 25) "U1" demoStore gwOk noFail "c1" 7).store.politicianTotals
          demoEvent.politician (if true then "support" else "oppose") =
        demoStore.politicianTotals demoEvent.politician (if true then "support" else "oppose") + 25 ∧
      (createContribution "E1" "P1" (.num 25) "U1" demoStore gwOk noFail "c1" 7).store.contributionsSum =
        demoStore.contributionsSum + 25 ∧
      (createContribution "E1" "P1" (.num 25) "U1" demoStore gwOk noFail "c1" 7).store.userContributionsSum
          "U1" = demoStore.userContributionsSum "U1" + 25) :=
  ⟨by decide, by decide, by decide, by decide, Or.inl ⟨rfl, by decide⟩, rfl,
    c8_minor_units_only_at_gateway "E1" "P1" 25 "U1" demoStore gwOk "c1" 7
      "cus1" demoEvent demoPac true ⟨"ch1"⟩ (by decide) (by decide) (by decide)
      (by decide) (Or.inl ⟨rfl, by decide⟩) rfl⟩

/-- C9: a profile update overwrites each of the five patchable fields
exactly when that field is present and non-empty (truthy) in the patch,
always sets the last-modified timestamp to now, leaves every other profile
field (iden, facebookId, email, created) unchanged, and persists the
patched record under the user's iden. -/
theorem c9_update_profile_fields (u : User) (p : Patch) (st : Store) (now : Int) :
    (updateProfile u p st false now).1 = 200 ∧
    (updateProfile u p st false now).2.users u.iden = some (applyPatch u p now) ∧
    (applyPatch u p now).name =
      (if strTruthy p.name then p.name.getD u.name else u.name) ∧
    (applyPatch u p now).occupation =
      (if strTruthy p.occupation then p.occupation else u.occupation) ∧
    (applyPatch u p now).employer =
      (if strTruthy p.employer then p.employer else u.employer) ∧
    (applyPatch u p now).streetAddress =
      (if strTruthy p.streetAddress then p.streetAddress else u.streetAddress) ∧
    (applyPatch u p now).cityStateZip =
      (if strTruthy p.cityStateZip then p.cityStateZip else u.cityStateZip) ∧
    (applyPatch u p now).iden = u.iden ∧
    (applyPatch u p now).facebookId = u.facebookId ∧
    (applyPatch u p now).email = u.email ∧
    (applyPatch u p now).created = u.created ∧
    (applyPatch u p now).modified = now := by
  unfold updateProfile applyPatch
  split_ifs <;> simp_all [hashSet]

/-- C10: the precondition on amount is truthiness only — any truthy body
amount (negative numbers and non-numeric strings included) passes the check
at lines 220-223, and once the lookups resolve and a polarity is found, the
flow proceeds to the gateway charge with that amount multiplied by 100;
no positivity, integrality or upper-bound check exists anywhere on the
path. -/
theorem c10_amount_truthiness_only (eventIden pacIden : String)
    (amount : JVal) (userIden : String) (st : Store)
    (gw : ChargeRequest → Except Unit Charge) (wf : Nat → Bool)
    (newIden : String) (now : Int) (customerId : String) (event : Event)
    (pac : Pac) (support : Bool)
    (he1 : eventIden ≠ "") (hp1 : pacIden ≠ "")
    (ht : amount.truthy = true)
    (hc : st.userIdenToStripeCustomerId userIden = some customerId)
    (he : st.events eventIden = some event)
    (hp : st.pacs pacIden = some pac)
    (hpol : polarityOf event pac support) :
    (createContribution eventIden pacIden amount userIden st gw wf newIden now).chargeAttempted =
      some (ccChargeReq amount customerId event pac support) ∧
    (ccChargeReq amount customerId event pac support).amount = jsMul100 amount := by
  have hb : bodyPresent eventIden pacIden amount = true := by
    simp [bodyPresent, he1, hp1, ht]
  constructor
  · rw [createContribution_path_charge eventIden pacIden amount userIden st
      gw wf newIden now customerId event pac support hb hc he hp hpol]
    exact chargeAndRecord_chargeAttempted st userIden gw wf newIden now amount
      customerId event pac support
  · rfl

/-- C10 witness: the truthy but negative amount -5 passes the precondition
and reaches the gateway as -500 cents. -/
theorem c10_amount_truthiness_only_witness :
    JVal.truthy (.num (-5)) = true ∧
    ("E1" : String) ≠ "" ∧ ("P1" : String) ≠ "" ∧
    demoStore.userIdenToStripeCustomerId "U1" = some "cus1" ∧
    demoStore.events "E1" = some demoEvent ∧
    demoStore.pacs "P1" = some demoPac ∧
    polarityOf demoEvent demoPac true ∧
    ((createContribution "E1" "P1" (.num (-5)) "U1" demoStore gwOk noFail "c1" 7).chargeAttempted =
        some (ccChargeReq (.num (-5)) "cus1" demoEvent demoPac true) ∧
      (ccChargeReq (.num (-5)) "cus1" demoEvent demoPac true).amount = jsMul100 (.num (-5))) ∧
    jsMul100 (.num (-5)) = .int (-500) :=
  ⟨by decide, by decide, by decide, by decide, by decide, by decide,
    Or.inl ⟨rfl, by decide⟩,
    c10_amount_truthiness_only "E1" "P1" (.num (-5)) "U1" demoStore gwOk noFail
      "c1" 7 "cus1" demoEvent demoPac true (by decide) (by decide) (by decide)
      (by decide) (by decide) (by decide) (Or.inl ⟨rfl, by decide⟩),
    by decide⟩
